import Mathlib

/-!
Shallow embedding of the NPCM8xx clock driver
(src/drivers/clk/nuvoton/clk_npcm8xx.c) and verification of the
specification's claims about it.

Machine integers are modelled as `Nat` with explicit `% 2^32` / `% 2^64`
where the C code performs 32-bit (`u32`) or 64-bit (`ulong`/`u64`)
arithmetic.  The hardware register file is a function from byte offsets to
register words; `readl`/`writel` are the only accesses.  The framework
round-trip `clk_request` / `clk_get_rate` (which re-enters this driver's
own `npcm_clk_request` / `npcm_clk_get_rate` ops) is embedded by passing
the dispatcher itself as the `G` argument of the helpers; the dispatcher
carries a fuel argument because the recursion through the static clock
table is what bounds it in C (the table's parent chains have depth at most
4, so any fuel of at least 4 — the file uses 8 — computes exactly what the
C code computes).
-/

namespace Npcm

/-- Clock identifiers.  Modelled from the spec: the numeric values come
from the dt-bindings header `npcm845-clock.h`, which is not part of the
sources under review; the spec describes the ids as opaque distinct
integers validated by `request` against `CLK_COUNT`, with `NONE = -1` as
sentinel, so only distinctness and `id < CLK_COUNT` matter here. -/
def CLK_REFCLK : Nat := 0

def CLK_PLL0 : Nat := 1

def CLK_PLL1 : Nat := 2

def CLK_PLL2 : Nat := 3

def CLK_PLL2DIV2 : Nat := 4

def CLK_AHB : Nat := 5

def CLK_APB2 : Nat := 6

def CLK_APB5 : Nat := 7

def CLK_UART1 : Nat := 8

def CLK_UART2 : Nat := 9

def CLK_SDHC : Nat := 10

/-- Number of valid clock ids (`request` rejects `id >= CLK_COUNT`).
Modelled from the spec together with the id values above. -/
def CLK_COUNT : Nat := 16

/-- GENMASK(h, l): bits h..l set, as in linux/bits.h for 32-bit use. -/
def genmask (h l : Nat) : Nat := ((1 <<< (h - l + 1)) - 1) <<< l

/-- Register offsets (from the source). -/
def CLKSEL : Nat := 0x04

def CLKDIV1 : Nat := 0x08

def CLKDIV2 : Nat := 0x2C

def CLKDIV3 : Nat := 0x58

def PLLCON0 : Nat := 0x0C

def PLLCON1 : Nat := 0x10

def PLLCON2 : Nat := 0x54

/-- PLLCON field masks. -/
def PLLCON_INDV : Nat := genmask 5 0

def PLLCON_FBDV : Nat := genmask 27 16

def PLLCON_OTDV1 : Nat := genmask 10 8

def PLLCON_OTDV2 : Nat := genmask 15 13

/-- CLKSEL field masks. -/
def CPUCKSEL : Nat := genmask 2 0

def SDCKSEL : Nat := genmask 7 6

def UARTCKSEL : Nat := genmask 9 8

/-- CLKSEL field values. -/
def CPUCKSEL_PLL0 : Nat := 0

def CPUCKSEL_PLL1 : Nat := 1

def CPUCKSEL_REFCLK : Nat := 2

def CPUCKSEL_PLL2 : Nat := 7

def CKSEL_PLL0 : Nat := 0

def CKSEL_PLL1 : Nat := 1

def CKSEL_REFCLK : Nat := 2

def CKSEL_PLL2 : Nat := 3

/-- CLKDIV1 field masks. -/
def CLK4DIV : Nat := genmask 27 26

def UARTDIV1 : Nat := genmask 20 16

def MMCCKDIV : Nat := genmask 15 11

/-- CLKDIV2 field masks (UARTDIV2 is also the field used on CLKDIV3 by
the CLK_UART2 table entry, exactly as in the source). -/
def APB2CKDIV : Nat := genmask 27 26

def APB5CKDIV : Nat := genmask 23 22

def UARTDIV2 : Nat := genmask 15 11

/-- Flags. -/
def FIXED_SRC : Nat := 1

def DIV_TYPE1 : Nat := 2

def DIV_TYPE2 : Nat := 4

def PRE_DIV2 : Nat := 8

def POST_DIV2 : Nat := 16

def REFCLK_25M : Nat := 25000000

/-- NONE = (-1) stored in a `u32` struct field. -/
def NONE32 : Nat := 0xFFFFFFFF

def U32MAX : Nat := 0xFFFFFFFF

/-- The `-ENOSYS` int return value converted to `ulong` (64-bit). -/
def ENOSYS_ULONG : Nat := 2 ^ 64 - 32

/-- Conversion of a C `int` value to `ulong` (64-bit two's complement). -/
def intToUlong (i : Int) : Nat := (i % (2 ^ 64 : Int)).toNat

/-- Index search for the lowest set bit, structurally recursive so that
the kernel can evaluate it (`fuel` bounds the bit width; 64 suffices for
every register word). -/
def lsbAux : Nat → Nat → Nat
  | 0, _ => 0
  | fuel + 1, x => if x % 2 = 1 then 0 else lsbAux fuel (x / 2) + 1

/-- C `ffs`: 1-based index of the lowest set bit, 0 when the argument is
0.  The driver only ever uses `ffs mask - 1` on nonzero masks. -/
def ffs (x : Nat) : Nat := if x = 0 then 0 else lsbAux 64 x + 1

/-- Hardware register file: a map from byte offset to stored 32-bit word. -/
def RegState : Type := Nat → Nat

/-- readl: a 32-bit register read. -/
def readl (st : RegState) (off : Nat) : Nat := st off % 2 ^ 32

/-- writel: a 32-bit register write. -/
def writel (st : RegState) (off v : Nat) : RegState :=
  fun o => if o = off then v % 2 ^ 32 else st o

/-- struct npcm_clk (one clock-table row). -/
structure NpcmClk where
  id : Nat
  parent_id : Int
  reg_clkdiv : Nat
  div_mask : Nat
  sel_mask : Nat
  sel_val : Nat
  flags : Nat

/-- struct npcm_clk_map (selector-encoding to clock-id pair). -/
structure NpcmClkMap where
  clkid : Nat
  clksel : Nat

/-- npcm8xx_cpu_clksel_map. -/
def npcm8xx_cpu_clksel_map : List NpcmClkMap :=
  [⟨CLK_PLL0, CPUCKSEL_PLL0⟩, ⟨CLK_PLL1, CPUCKSEL_PLL1⟩, ⟨CLK_PLL2, CPUCKSEL_PLL2⟩]

/-- npcm8xx_clksel_map. -/
def npcm8xx_clksel_map : List NpcmClkMap :=
  [⟨CLK_PLL0, CKSEL_PLL0⟩, ⟨CLK_PLL1, CKSEL_PLL1⟩, ⟨CLK_PLL2DIV2, CKSEL_PLL2⟩]

/-- npcm8xx_clks: the static clock table, row for row from the source. -/
def npcm8xx_clks : List NpcmClk :=
  [⟨CLK_PLL0, (CLK_REFCLK : Int), PLLCON0, NONE32, NONE32, NONE32, FIXED_SRC⟩,
   ⟨CLK_PLL1, (CLK_REFCLK : Int), PLLCON1, NONE32, NONE32, NONE32, FIXED_SRC⟩,
   ⟨CLK_PLL2, (CLK_REFCLK : Int), PLLCON2, NONE32, NONE32, NONE32, FIXED_SRC⟩,
   ⟨CLK_PLL2DIV2, (CLK_REFCLK : Int), PLLCON2, NONE32, NONE32, NONE32,
     FIXED_SRC ||| POST_DIV2⟩,
   ⟨CLK_AHB, (-1 : Int), CLKDIV1, CLK4DIV, CPUCKSEL, NONE32,
     DIV_TYPE1 ||| PRE_DIV2⟩,
   ⟨CLK_APB2, (CLK_AHB : Int), CLKDIV2, APB2CKDIV, NONE32, NONE32,
     FIXED_SRC ||| DIV_TYPE2⟩,
   ⟨CLK_APB5, (CLK_AHB : Int), CLKDIV2, APB5CKDIV, NONE32, NONE32,
     FIXED_SRC ||| DIV_TYPE2⟩,
   ⟨CLK_UART1, (CLK_PLL2DIV2 : Int), CLKDIV1, UARTDIV1, UARTCKSEL, CKSEL_PLL2,
     DIV_TYPE1⟩,
   ⟨CLK_UART2, (CLK_PLL2DIV2 : Int), CLKDIV3, UARTDIV2, UARTCKSEL, CKSEL_PLL2,
     DIV_TYPE1⟩,
   ⟨CLK_SDHC, (CLK_PLL0 : Int), CLKDIV1, MMCCKDIV, SDCKSEL, CKSEL_PLL0,
     DIV_TYPE1⟩]

/-- clksel_to_clkid: linear search of the domain's selector map, `-EINVAL`
(= -22) when no entry matches. -/
def clksel_to_clkid (clksel : Nat) (mask : Nat) : Int :=
  let map := if mask = CPUCKSEL then npcm8xx_cpu_clksel_map else npcm8xx_clksel_map
  match map.find? (fun e => e.clksel == clksel) with
  | some e => (e.clkid : Int)
  | none => -22

/-- npcm_clk_get: linear search of the clock table by id. -/
def npcm_clk_get (clk_id : Nat) : Option NpcmClk :=
  npcm8xx_clks.find? (fun c => c.id == clk_id)

/-- npcm_clk_request (the driver's `request` op): `-EINVAL` for ids at or
beyond `CLK_COUNT`, 0 otherwise. -/
def npcm_clk_request (id : Nat) : Int :=
  if CLK_COUNT ≤ id then -22 else 0

/-- npcm_clk_get_fin: resolve a node's input frequency.  `G` is the
framework's `clk_get_rate` re-entering `npcm_clk_get_rate`; a failing
`clk_request` makes the function return 0. -/
def npcm_clk_get_fin (G : RegState → Nat → Nat × RegState) (st : RegState)
    (clk : NpcmClk) : Nat × RegState :=
  let pid : Nat :=
    if clk.flags &&& FIXED_SRC ≠ 0 then
      intToUlong clk.parent_id
    else
      let clksel := (readl st CLKSEL &&& clk.sel_mask) >>> (ffs clk.sel_mask - 1)
      intToUlong (clksel_to_clkid clksel clk.sel_mask)
  if npcm_clk_request pid ≠ 0 then (0, st) else G st pid

/-- npcm_clk_get_fout: generic divided-node rate.  `div` is a `u32` in C,
hence the `% 2^32` reductions. -/
def npcm_clk_get_fout (G : RegState → Nat → Nat × RegState) (st : RegState)
    (id : Nat) : Nat × RegState :=
  match npcm_clk_get id with
  | none => (0, st)
  | some clk =>
    let fr := npcm_clk_get_fin G st clk
    let val := readl fr.2 clk.reg_clkdiv
    let clkdiv := (val &&& clk.div_mask) >>> (ffs clk.div_mask - 1)
    let div0 := if clk.flags &&& DIV_TYPE1 ≠ 0 then (clkdiv + 1) % 2 ^ 32
      else (1 <<< clkdiv) % 2 ^ 32
    let div := if clk.flags &&& PRE_DIV2 ≠ 0 then div0 * 2 % 2 ^ 32 else div0
    (fr.1 / div, fr.2)

/-- npcm_clk_get_pll_rate: the PLL formula.  The product is taken in
64-bit (`u64`) arithmetic; `do_div`'s divisor parameter is a `u32`.  When
the three dividers are all zero the C `do_div` divides by zero
(undefined behaviour on the hardware); `Nat` division then yields 0. -/
def npcm_clk_get_pll_rate (G : RegState → Nat → Nat × RegState) (st : RegState)
    (id : Nat) : Nat × RegState :=
  match npcm_clk_get id with
  | none => (0, st)
  | some clk =>
    let fr := npcm_clk_get_fin G st clk
    let val := readl fr.2 clk.reg_clkdiv
    let indv := (val &&& PLLCON_INDV) >>> (ffs PLLCON_INDV - 1)
    let fbdv := (val &&& PLLCON_FBDV) >>> (ffs PLLCON_FBDV - 1)
    let otdv1 := (val &&& PLLCON_OTDV1) >>> (ffs PLLCON_OTDV1 - 1)
    let otdv2 := (val &&& PLLCON_OTDV2) >>> (ffs PLLCON_OTDV2 - 1)
    let ret := fr.1 * fbdv % 2 ^ 64
    let ret := ret / (indv * otdv1 * otdv2 % 2 ^ 32)
    let ret := if clk.flags &&& POST_DIV2 ≠ 0 then ret / 2 else ret
    (ret, fr.2)

/-- npcm_clk_get_rate: the dispatcher (`get_rate` op).  The fuel argument
bounds the recursion through parents; 4 suffices for every chain in the
table, all theorems use 8. -/
def npcm_clk_get_rate : Nat → RegState → Nat → Nat × RegState
  | 0, st, _ => (0, st)
  | fuel + 1, st, id =>
    if id = CLK_REFCLK then (REFCLK_25M, st)
    else if id = CLK_PLL0 ∨ id = CLK_PLL1 ∨ id = CLK_PLL2 ∨ id = CLK_PLL2DIV2 then
      npcm_clk_get_pll_rate (npcm_clk_get_rate fuel) st id
    else if id = CLK_AHB ∨ id = CLK_APB2 ∨ id = CLK_APB5 then
      npcm_clk_get_fout (npcm_clk_get_rate fuel) st id
    else (ENOSYS_ULONG, st)

/-- npcm_clk_set_fout: program mux and divider for a target rate.  `div`
and `clkdiv` are `u32` in C; `DIV_ROUND_UP` runs in `ulong` arithmetic
before the truncating assignment, and `clkdiv = div - 1` wraps in `u32`.
`ilog2` on the (unreachable for the table's settable nodes) power-of-two
branch is truncating base-2 logarithm. -/
def npcm_clk_set_fout (G : RegState → Nat → Nat × RegState) (st : RegState)
    (id : Nat) (rate : Nat) : Nat × RegState :=
  match npcm_clk_get id with
  | none => (0, st)
  | some clk =>
    let v0 := readl st CLKSEL
    let v1 := v0 &&& (U32MAX ^^^ clk.sel_mask) |||
      (clk.sel_val <<< (ffs clk.sel_mask - 1)) &&& clk.sel_mask
    let st1 := writel st CLKSEL v1
    let fr := npcm_clk_get_fin G st1 clk
    let div := (fr.1 + rate - 1) % 2 ^ 64 / rate % 2 ^ 32
    let clkdiv := if clk.flags &&& DIV_TYPE1 ≠ 0 then (div + (2 ^ 32 - 1)) % 2 ^ 32
      else Nat.log2 div
    let v2 := readl fr.2 clk.reg_clkdiv
    let v3 := v2 &&& (U32MAX ^^^ clk.div_mask) |||
      (clkdiv <<< (ffs clk.div_mask - 1)) &&& clk.div_mask
    (fr.1 / div, writel fr.2 clk.reg_clkdiv v3)

/-- npcm_clk_set_rate: the dispatcher (`set_rate` op). -/
def npcm_clk_set_rate (st : RegState) (id : Nat) (rate : Nat) : Nat × RegState :=
  if id = CLK_SDHC ∨ id = CLK_UART1 ∨ id = CLK_UART2 then
    npcm_clk_set_fout (npcm_clk_get_rate 8) st id rate
  else (ENOSYS_ULONG, st)

/-- Register file with PLLCON0 and PLLCON2 programmed to
indv = 1, fbdv = 64, otdv1 = 2, otdv2 = 1 (the spec's reference PLL
configuration) and all other registers zero. -/
def pllState : RegState :=
  fun off => if off = PLLCON0 then 0x402201 else if off = PLLCON2 then 0x402201 else 0

end Npcm

namespace Npcm

/-- Named copy of the CLK_SDHC table row (for lookup lemmas and witnesses). -/
def sdhcClk : NpcmClk :=
  ⟨CLK_SDHC, (CLK_PLL0 : Int), CLKDIV1, MMCCKDIV, SDCKSEL, CKSEL_PLL0, DIV_TYPE1⟩

/-- Named copy of the CLK_UART1 table row. -/
def uart1Clk : NpcmClk :=
  ⟨CLK_UART1, (CLK_PLL2DIV2 : Int), CLKDIV1, UARTDIV1, UARTCKSEL, CKSEL_PLL2, DIV_TYPE1⟩

/-- Named copy of the CLK_UART2 table row. -/
def uart2Clk : NpcmClk :=
  ⟨CLK_UART2, (CLK_PLL2DIV2 : Int), CLKDIV3, UARTDIV2, UARTCKSEL, CKSEL_PLL2, DIV_TYPE1⟩

/-- Named copy of the CLK_AHB table row. -/
def ahbClk : NpcmClk :=
  ⟨CLK_AHB, (-1 : Int), CLKDIV1, CLK4DIV, CPUCKSEL, NONE32, DIV_TYPE1 ||| PRE_DIV2⟩

/-- Named copy of the CLK_APB2 table row. -/
def apb2Clk : NpcmClk :=
  ⟨CLK_APB2, (CLK_AHB : Int), CLKDIV2, APB2CKDIV, NONE32, NONE32, FIXED_SRC ||| DIV_TYPE2⟩

/-- Named copy of the CLK_APB5 table row. -/
def apb5Clk : NpcmClk :=
  ⟨CLK_APB5, (CLK_AHB : Int), CLKDIV2, APB5CKDIV, NONE32, NONE32, FIXED_SRC ||| DIV_TYPE2⟩

theorem get10 : npcm_clk_get 10 = some sdhcClk := rfl

theorem get8 : npcm_clk_get 8 = some uart1Clk := rfl

theorem get9 : npcm_clk_get 9 = some uart2Clk := rfl

theorem get5 : npcm_clk_get 5 = some ahbClk := rfl

theorem get6 : npcm_clk_get 6 = some apb2Clk := rfl

theorem get7 : npcm_clk_get 7 = some apb5Clk := rfl

theorem fin_state (G : RegState → Nat → Nat × RegState)
    (hG : ∀ st i, (G st i).2 = st) (st : RegState) (clk : NpcmClk) :
    (npcm_clk_get_fin G st clk).2 = st := by
  rw [npcm_clk_get_fin]
  split <;> split <;> first | rfl | exact hG _ _

theorem fout_state (G : RegState → Nat → Nat × RegState)
    (hG : ∀ st i, (G st i).2 = st) (st : RegState) (id : Nat) :
    (npcm_clk_get_fout G st id).2 = st := by
  rw [npcm_clk_get_fout]
  cases npcm_clk_get id with
  | none => rfl
  | some clk => exact fin_state G hG st clk

theorem pll_state (G : RegState → Nat → Nat × RegState)
    (hG : ∀ st i, (G st i).2 = st) (st : RegState) (id : Nat) :
    (npcm_clk_get_pll_rate G st id).2 = st := by
  rw [npcm_clk_get_pll_rate]
  cases npcm_clk_get id with
  | none => rfl
  | some clk => exact fin_state G hG st clk

theorem getRate_state (fuel : Nat) (st : RegState) (id : Nat) :
    (npcm_clk_get_rate fuel st id).2 = st := by
  induction fuel generalizing st id with
  | zero => rfl
  | succ f ih =>
    rw [npcm_clk_get_rate]
    split
    · rfl
    · split
      · exact pll_state _ ih _ _
      · split
        · exact fout_state _ ih _ _
        · rfl

end Npcm

namespace Npcm

/-- Named copy of the CLK_PLL0 table row. -/
def pll0Clk : NpcmClk := ⟨CLK_PLL0, (CLK_REFCLK : Int), PLLCON0, NONE32, NONE32, NONE32, FIXED_SRC⟩

/-- Named copy of the CLK_PLL1 table row. -/
def pll1Clk : NpcmClk := ⟨CLK_PLL1, (CLK_REFCLK : Int), PLLCON1, NONE32, NONE32, NONE32, FIXED_SRC⟩

/-- Named copy of the CLK_PLL2 table row. -/
def pll2Clk : NpcmClk := ⟨CLK_PLL2, (CLK_REFCLK : Int), PLLCON2, NONE32, NONE32, NONE32, FIXED_SRC⟩

/-- Named copy of the CLK_PLL2DIV2 table row. -/
def pll2div2Clk : NpcmClk := ⟨CLK_PLL2DIV2, (CLK_REFCLK : Int), PLLCON2, NONE32, NONE32, NONE32, FIXED_SRC ||| POST_DIV2⟩

theorem get1 : npcm_clk_get 1 = some pll0Clk := rfl

theorem get2 : npcm_clk_get 2 = some pll1Clk := rfl

theorem get3 : npcm_clk_get 3 = some pll2Clk := rfl

theorem get4 : npcm_clk_get 4 = some pll2div2Clk := rfl

theorem ffs_INDV : ffs 63 = 1 := by decide

theorem ffs_FBDV : ffs 268369920 = 17 := by decide

theorem ffs_OTDV1 : ffs 1792 = 9 := by decide

theorem ffs_OTDV2 : ffs 57344 = 14 := by decide

theorem getRate_pll0 (f : Nat) (st : RegState) :
    npcm_clk_get_rate (f + 2) st CLK_PLL0 =
      (25000000 * ((readl st PLLCON0 &&& PLLCON_FBDV) >>> 16) % 2 ^ 64 /
        ((readl st PLLCON0 &&& PLLCON_INDV) *
          ((readl st PLLCON0 &&& PLLCON_OTDV1) >>> 8) *
          ((readl st PLLCON0 &&& PLLCON_OTDV2) >>> 13) % 2 ^ 32), st) := by
  rw [npcm_clk_get_rate, npcm_clk_get_pll_rate]
  simp [get1, pll0Clk, npcm_clk_get_fin, npcm_clk_request, intToUlong,
    npcm_clk_get_rate, readl,
    CLK_REFCLK, CLK_PLL0, CLK_PLL1, CLK_PLL2, CLK_PLL2DIV2, CLK_AHB, CLK_APB2,
    CLK_APB5, CLK_COUNT, FIXED_SRC, POST_DIV2, REFCLK_25M, genmask,
    CLKSEL, PLLCON0, PLLCON_INDV, PLLCON_FBDV, PLLCON_OTDV1, PLLCON_OTDV2,
    ffs_INDV, ffs_FBDV, ffs_OTDV1, ffs_OTDV2]

theorem getRate_pll1 (f : Nat) (st : RegState) :
    npcm_clk_get_rate (f + 2) st CLK_PLL1 =
      (25000000 * ((readl st PLLCON1 &&& PLLCON_FBDV) >>> 16) % 2 ^ 64 /
        ((readl st PLLCON1 &&& PLLCON_INDV) *
          ((readl st PLLCON1 &&& PLLCON_OTDV1) >>> 8) *
          ((readl st PLLCON1 &&& PLLCON_OTDV2) >>> 13) % 2 ^ 32), st) := by
  rw [npcm_clk_get_rate, npcm_clk_get_pll_rate]
  simp [get2, pll1Clk, npcm_clk_get_fin, npcm_clk_request, intToUlong,
    npcm_clk_get_rate, readl,
    CLK_REFCLK, CLK_PLL0, CLK_PLL1, CLK_PLL2, CLK_PLL2DIV2, CLK_AHB, CLK_APB2,
    CLK_APB5, CLK_COUNT, FIXED_SRC, POST_DIV2, REFCLK_25M, genmask,
    CLKSEL, PLLCON1, PLLCON_INDV, PLLCON_FBDV, PLLCON_OTDV1, PLLCON_OTDV2,
    ffs_INDV, ffs_FBDV, ffs_OTDV1, ffs_OTDV2]

theorem getRate_pll2 (f : Nat) (st : RegState) :
    npcm_clk_get_rate (f + 2) st CLK_PLL2 =
      (25000000 * ((readl st PLLCON2 &&& PLLCON_FBDV) >>> 16) % 2 ^ 64 /
        ((readl st PLLCON2 &&& PLLCON_INDV) *
          ((readl st PLLCON2 &&& PLLCON_OTDV1) >>> 8) *
          ((readl st PLLCON2 &&& PLLCON_OTDV2) >>> 13) % 2 ^ 32), st) := by
  rw [npcm_clk_get_rate, npcm_clk_get_pll_rate]
  simp [get3, pll2Clk, npcm_clk_get_fin, npcm_clk_request, intToUlong,
    npcm_clk_get_rate, readl,
    CLK_REFCLK, CLK_PLL0, CLK_PLL1, CLK_PLL2, CLK_PLL2DIV2, CLK_AHB, CLK_APB2,
    CLK_APB5, CLK_COUNT, FIXED_SRC, POST_DIV2, REFCLK_25M, genmask,
    CLKSEL, PLLCON2, PLLCON_INDV, PLLCON_FBDV, PLLCON_OTDV1, PLLCON_OTDV2,
    ffs_INDV, ffs_FBDV, ffs_OTDV1, ffs_OTDV2]

theorem getRate_pll2div2 (f : Nat) (st : RegState) :
    npcm_clk_get_rate (f + 2) st CLK_PLL2DIV2 =
      (25000000 * ((readl st PLLCON2 &&& PLLCON_FBDV) >>> 16) % 2 ^ 64 /
        ((readl st PLLCON2 &&& PLLCON_INDV) *
          ((readl st PLLCON2 &&& PLLCON_OTDV1) >>> 8) *
          ((readl st PLLCON2 &&& PLLCON_OTDV2) >>> 13) % 2 ^ 32) / 2, st) := by
  rw [npcm_clk_get_rate, npcm_clk_get_pll_rate]
  simp [get4, pll2div2Clk, npcm_clk_get_fin, npcm_clk_request, intToUlong,
    npcm_clk_get_rate, readl,
    CLK_REFCLK, CLK_PLL0, CLK_PLL1, CLK_PLL2, CLK_PLL2DIV2, CLK_AHB, CLK_APB2,
    CLK_APB5, CLK_COUNT, FIXED_SRC, POST_DIV2, REFCLK_25M, genmask,
    CLKSEL, PLLCON2, PLLCON_INDV, PLLCON_FBDV, PLLCON_OTDV1, PLLCON_OTDV2,
    ffs_INDV, ffs_FBDV, ffs_OTDV1, ffs_OTDV2]

end Npcm

namespace Npcm

/-- Claim C1: resolving a PLL node's output frequency reads the PLL
control register, extracts the four sub-fields (input divider, feedback
divider, output divider 1, output divider 2), and returns
(inputFrequency * feedbackDivider) / (inputDivider * outputDivider1 *
outputDivider2) computed with a double-width (64-bit) intermediate
product, halved once more when POST_DIV2 is set; with the 25 MHz input
and indv=1, fbdv=64, otdv1=2, otdv2=1 the result is 800000000 Hz, and
400000000 Hz when POST_DIV2 is set. -/
theorem claim_C1 :
    (∀ (st : RegState) (id : Nat) (clk : NpcmClk),
      (id = CLK_PLL0 ∨ id = CLK_PLL1 ∨ id = CLK_PLL2 ∨ id = CLK_PLL2DIV2) →
      npcm_clk_get id = some clk →
      (npcm_clk_get_rate 8 st id).1 =
        (let v := readl st clk.reg_clkdiv
         let indv := v &&& PLLCON_INDV
         let fbdv := (v &&& PLLCON_FBDV) >>> 16
         let otdv1 := (v &&& PLLCON_OTDV1) >>> 8
         let otdv2 := (v &&& PLLCON_OTDV2) >>> 13
         let base := REFCLK_25M * fbdv % 2 ^ 64 / (indv * otdv1 * otdv2 % 2 ^ 32)
         if clk.flags &&& POST_DIV2 ≠ 0 then base / 2 else base)) ∧
    (npcm_clk_get_rate 8 pllState CLK_PLL0).1 = 800000000 ∧
    (npcm_clk_get_rate 8 pllState CLK_PLL2DIV2).1 = 400000000 := by
  refine ⟨?_, by decide, by decide⟩
  intro st id clk h hget
  rcases h with h | h | h | h <;> subst h <;>
    simp only [CLK_PLL0, CLK_PLL1, CLK_PLL2, CLK_PLL2DIV2] at hget ⊢
  · have h9 := getRate_pll0 6 st
    rw [show (6 + 2 : Nat) = 8 from rfl, show CLK_PLL0 = 1 from rfl] at h9
    rw [get1] at hget
    cases hget
    rw [h9]
    simp [pll0Clk, POST_DIV2, FIXED_SRC, REFCLK_25M]
  · have h9 := getRate_pll1 6 st
    rw [show (6 + 2 : Nat) = 8 from rfl, show CLK_PLL1 = 2 from rfl] at h9
    rw [get2] at hget
    cases hget
    rw [h9]
    simp [pll1Clk, POST_DIV2, FIXED_SRC, REFCLK_25M]
  · have h9 := getRate_pll2 6 st
    rw [show (6 + 2 : Nat) = 8 from rfl, show CLK_PLL2 = 3 from rfl] at h9
    rw [get3] at hget
    cases hget
    rw [h9]
    simp [pll2Clk, POST_DIV2, FIXED_SRC, REFCLK_25M]
  · have h9 := getRate_pll2div2 6 st
    rw [show (6 + 2 : Nat) = 8 from rfl, show CLK_PLL2DIV2 = 4 from rfl] at h9
    rw [get4] at hget
    cases hget
    rw [h9]
    simp [pll2div2Clk, POST_DIV2, FIXED_SRC, REFCLK_25M]

/-- Witness for C1: the universal part applied at the concrete reference
PLL configuration and CLK_PLL0. -/
theorem claim_C1_witness :
    (npcm_clk_get_rate 8 pllState CLK_PLL0).1 =
      (let v := readl pllState pll0Clk.reg_clkdiv
       let indv := v &&& PLLCON_INDV
       let fbdv := (v &&& PLLCON_FBDV) >>> 16
       let otdv1 := (v &&& PLLCON_OTDV1) >>> 8
       let otdv2 := (v &&& PLLCON_OTDV2) >>> 13
       let base := REFCLK_25M * fbdv % 2 ^ 64 / (indv * otdv1 * otdv2 % 2 ^ 32)
       if pll0Clk.flags &&& POST_DIV2 ≠ 0 then base / 2 else base) :=
  claim_C1.1 pllState CLK_PLL0 pll0Clk (Or.inl rfl) get1

/-- Claim C9: the rate-resolution path (input-frequency resolution,
generic divider resolution, PLL resolution) performs no register writes:
the register state threaded through `npcm_clk_get_rate` is returned
unchanged for every clock id, fuel and starting state. -/
theorem claim_C9 : ∀ (fuel : Nat) (st : RegState) (id : Nat),
    (npcm_clk_get_rate fuel st id).2 = st :=
  getRate_state

end Npcm

namespace Npcm

theorem fin_state_rate (fuel : Nat) (st : RegState) (clk : NpcmClk) :
    (npcm_clk_get_fin (npcm_clk_get_rate fuel) st clk).2 = st :=
  fin_state _ (fun s i => getRate_state fuel s i) st clk

theorem extract_le (v m s : Nat) : (v &&& m) >>> s ≤ m >>> s := by
  simp only [Nat.shiftRight_eq_div_pow]
  exact Nat.div_le_div_right Nat.and_le_right

theorem ffs_CLK4DIV : ffs 201326592 = 27 := by decide

theorem ffs_UARTDIV1 : ffs 2031616 = 17 := by decide

theorem ffs_MMCCKDIV : ffs 63488 = 12 := by decide

theorem ffs_APB5CKDIV : ffs 12582912 = 23 := by decide

/-- Claim C2: resolving a divided node's output frequency reads the
node's divider register, extracts the field under div_mask, computes
div = field + 1 when DIV_TYPE1 (DIV_LINEAR) is set and div = 2^field
when DIV_TYPE2 (DIV_POW2) is set, doubles div when PRE_DIV2 (PRE_HALVE)
is set, and returns the resolved input frequency divided by div with
truncating integer division. -/
theorem claim_C2 : ∀ (fuel : Nat) (st : RegState) (id : Nat) (clk : NpcmClk),
    (id = CLK_AHB ∨ id = CLK_APB2 ∨ id = CLK_APB5 ∨ id = CLK_UART1 ∨
      id = CLK_UART2 ∨ id = CLK_SDHC) →
    npcm_clk_get id = some clk →
    (npcm_clk_get_fout (npcm_clk_get_rate fuel) st id).1 =
      (let field := (readl st clk.reg_clkdiv &&& clk.div_mask) >>> (ffs clk.div_mask - 1)
       let d0 := if clk.flags &&& DIV_TYPE1 ≠ 0 then field + 1 else 2 ^ field
       let d := if clk.flags &&& PRE_DIV2 ≠ 0 then 2 * d0 else d0
       (npcm_clk_get_fin (npcm_clk_get_rate fuel) st clk).1 / d) := by
  intro fuel st id clk h hget
  rcases h with h | h | h | h | h | h <;> subst h <;>
    simp only [CLK_AHB, CLK_APB2, CLK_APB5, CLK_UART1, CLK_UART2, CLK_SDHC] at hget ⊢
  · rw [get5] at hget
    cases hget
    rw [npcm_clk_get_fout, get5]
    have hf : (st 8 % 4294967296 &&& 201326592) >>> 26 ≤ 3 :=
      le_trans (extract_le _ _ _) (by decide)
    simp [ahbClk, fin_state_rate, DIV_TYPE1, DIV_TYPE2, PRE_DIV2, CLK4DIV,
      CLKDIV1, genmask, ffs_CLK4DIV, readl, Nat.mul_comm]
    rw [Nat.mod_eq_of_lt (by omega)]
  · rw [get6] at hget
    cases hget
    rw [npcm_clk_get_fout, get6]
    have hf : (st 44 % 4294967296 &&& 201326592) >>> 26 ≤ 3 :=
      le_trans (extract_le _ _ _) (by decide)
    have h2 : (2 : Nat) ^ ((st 44 % 4294967296 &&& 201326592) >>> 26) ≤ 2 ^ 3 :=
      Nat.pow_le_pow_right (by norm_num) hf
    simp [apb2Clk, fin_state_rate, DIV_TYPE1, DIV_TYPE2, PRE_DIV2, FIXED_SRC, APB2CKDIV,
      CLKDIV2, genmask, ffs_CLK4DIV, readl, Nat.one_shiftLeft,
      (by decide : (5 : Nat) &&& 8 = 0), (by decide : (5 : Nat) &&& 2 = 0)]
    rw [Nat.mod_eq_of_lt (by omega)]
  · rw [get7] at hget
    cases hget
    rw [npcm_clk_get_fout, get7]
    have hf : (st 44 % 4294967296 &&& 12582912) >>> 22 ≤ 3 :=
      le_trans (extract_le _ _ _) (by decide)
    have h2 : (2 : Nat) ^ ((st 44 % 4294967296 &&& 12582912) >>> 22) ≤ 2 ^ 3 :=
      Nat.pow_le_pow_right (by norm_num) hf
    simp [apb5Clk, fin_state_rate, DIV_TYPE1, DIV_TYPE2, PRE_DIV2, FIXED_SRC, APB5CKDIV,
      CLKDIV2, genmask, ffs_APB5CKDIV, readl, Nat.one_shiftLeft,
      (by decide : (5 : Nat) &&& 8 = 0), (by decide : (5 : Nat) &&& 2 = 0)]
    rw [Nat.mod_eq_of_lt (by omega)]
  · rw [get8] at hget
    cases hget
    rw [npcm_clk_get_fout, get8]
    have hf : (st 8 % 4294967296 &&& 2031616) >>> 16 ≤ 31 :=
      le_trans (extract_le _ _ _) (by decide)
    simp [uart1Clk, fin_state_rate, DIV_TYPE1, DIV_TYPE2, PRE_DIV2, UARTDIV1,
      CLKDIV1, genmask, ffs_UARTDIV1, readl, (by decide : (2 : Nat) &&& 8 = 0)]
    rw [Nat.mod_eq_of_lt (by omega)]
  · rw [get9] at hget
    cases hget
    rw [npcm_clk_get_fout, get9]
    have hf : (st 88 % 4294967296 &&& 63488) >>> 11 ≤ 31 :=
      le_trans (extract_le _ _ _) (by decide)
    simp [uart2Clk, fin_state_rate, DIV_TYPE1, DIV_TYPE2, PRE_DIV2, UARTDIV2,
      CLKDIV3, genmask, ffs_MMCCKDIV, readl, (by decide : (2 : Nat) &&& 8 = 0)]
    rw [Nat.mod_eq_of_lt (by omega)]
  · rw [get10] at hget
    cases hget
    rw [npcm_clk_get_fout, get10]
    have hf : (st 8 % 4294967296 &&& 63488) >>> 11 ≤ 31 :=
      le_trans (extract_le _ _ _) (by decide)
    simp [sdhcClk, fin_state_rate, DIV_TYPE1, DIV_TYPE2, PRE_DIV2, MMCCKDIV,
      CLKDIV1, genmask, ffs_MMCCKDIV, readl, (by decide : (2 : Nat) &&& 8 = 0)]
    rw [Nat.mod_eq_of_lt (by omega)]

/-- Witness for C2: the theorem applied at the reference PLL register
file and CLK_APB2. -/
theorem claim_C2_witness :
    (npcm_clk_get_fout (npcm_clk_get_rate 8) pllState CLK_APB2).1 =
      (let field := (readl pllState apb2Clk.reg_clkdiv &&& apb2Clk.div_mask) >>>
        (ffs apb2Clk.div_mask - 1)
       let d0 := if apb2Clk.flags &&& DIV_TYPE1 ≠ 0 then field + 1 else 2 ^ field
       let d := if apb2Clk.flags &&& PRE_DIV2 ≠ 0 then 2 * d0 else d0
       (npcm_clk_get_fin (npcm_clk_get_rate 8) pllState apb2Clk).1 / d) :=
  claim_C2 8 pllState CLK_APB2 apb2Clk (Or.inr (Or.inl rfl)) get6

end Npcm

namespace Npcm

/-- Claim C5: for every clock id with no modeled behavior the dispatcher's
get_rate returns the -ENOSYS (NotImplemented) error value, never a
default or zero treated as a valid rate, and set_rate on any id not
marked settable returns -ENOSYS as well. -/
theorem claim_C5 : ∀ (st : RegState) (id : Nat) (rate : Nat),
    (¬(id = CLK_REFCLK ∨ id = CLK_PLL0 ∨ id = CLK_PLL1 ∨ id = CLK_PLL2 ∨
        id = CLK_PLL2DIV2 ∨ id = CLK_AHB ∨ id = CLK_APB2 ∨ id = CLK_APB5) →
      (npcm_clk_get_rate 8 st id).1 = ENOSYS_ULONG) ∧
    (¬(id = CLK_SDHC ∨ id = CLK_UART1 ∨ id = CLK_UART2) →
      (npcm_clk_set_rate st id rate).1 = ENOSYS_ULONG) := by
  intro st id rate
  constructor
  · intro h
    push_neg at h
    obtain ⟨h0, h1, h2, h3, h4, h5, h6, h7⟩ := h
    rw [npcm_clk_get_rate]
    simp [h0, h1, h2, h3, h4, h5, h6, h7]
  · intro h
    push_neg at h
    obtain ⟨h0, h1, h2⟩ := h
    rw [npcm_clk_set_rate]
    simp [h0, h1, h2]

/-- Witness for C5: id 11 is in range but has no modeled behavior; both
dispatchers reject it with -ENOSYS. -/
theorem claim_C5_witness :
    (npcm_clk_get_rate 8 pllState 11).1 = ENOSYS_ULONG ∧
    (npcm_clk_set_rate pllState 11 1).1 = ENOSYS_ULONG :=
  ⟨(claim_C5 pllState 11 1).1 (by decide), (claim_C5 pllState 11 1).2 (by decide)⟩

/-- Register file whose PLLCON0 has fbdv = 64 but indv = otdv1 = otdv2 = 0. -/
def pllZeroState : RegState := fun off => if off = PLLCON0 then 0x400000 else 0

/-- Claim C7 (code evaluated at the failing input): with
indv = otdv1 = otdv2 = 0 in PLLCON0 the PLL divisor is 0, and the code
does not fail with a DivisionByZero error: the unchecked do_div runs on a
zero divisor (undefined behaviour on hardware, 0 in the Nat model) and
get_rate hands back 0 as if it were a rate, contradicting the claim's
required error. -/
theorem claim_C7 :
    (readl pllZeroState PLLCON0 &&& PLLCON_INDV) *
      ((readl pllZeroState PLLCON0 &&& PLLCON_OTDV1) >>> 8) *
      ((readl pllZeroState PLLCON0 &&& PLLCON_OTDV2) >>> 13) = 0 ∧
    (readl pllZeroState PLLCON0 &&& PLLCON_FBDV) >>> 16 = 64 ∧
    (npcm_clk_get_rate 8 pllZeroState CLK_PLL0).1 = 0 := by
  exact ⟨by decide, by decide, by decide⟩

/-- Register file whose CLKSEL holds encoding 2 in its low mux field. -/
def muxRefState : RegState := fun off => if off = CLKSEL then 2 else 0

/-- Counterexample for C6: CLKSEL encoding 2 (CPUCKSEL_REFCLK) has no
entry in the CPU selector map, clksel_to_clkid duly fails with -EINVAL,
yet resolving CLK_AHB through that very encoding returns the
silently-valid-looking rate 0 instead of surfacing the error — refuting
the claim's "never degrades into a silently-valid result such as a zero
rate". -/
theorem claim_C6_cex :
    clksel_to_clkid 2 CPUCKSEL = -22 ∧
    (npcm_clk_get_rate 8 muxRefState CLK_AHB).1 = 0 := by
  exact ⟨by decide, by decide⟩

/-- Claim C6 as amended: an encoding with no entry in the domain's
selector map makes clksel_to_clkid fail with -EINVAL
(UnknownSelectorEncoding) — it never yields an arbitrary clock id — but
npcm_clk_get_fin then converts that failure into a returned input
frequency of 0 (the out-of-range parent id fails clk_request), so the
resolved rate of such a node degrades to 0 rather than propagating the
error. -/
theorem claim_C6 :
    (∀ (clksel : Nat),
      (∀ e ∈ npcm8xx_cpu_clksel_map, e.clksel ≠ clksel) →
      clksel_to_clkid clksel CPUCKSEL = -22) ∧
    (∀ (clksel : Nat) (mask : Nat), mask ≠ CPUCKSEL →
      (∀ e ∈ npcm8xx_clksel_map, e.clksel ≠ clksel) →
      clksel_to_clkid clksel mask = -22) ∧
    (∀ (G : RegState → Nat → Nat × RegState) (st : RegState) (clk : NpcmClk),
      clk.flags &&& FIXED_SRC = 0 →
      clksel_to_clkid ((readl st CLKSEL &&& clk.sel_mask) >>> (ffs clk.sel_mask - 1))
        clk.sel_mask = -22 →
      npcm_clk_get_fin G st clk = (0, st)) := by
  refine ⟨?_, ?_, ?_⟩
  · intro clksel h
    have hf : List.find? (fun e => e.clksel == clksel) npcm8xx_cpu_clksel_map = none :=
      List.find?_eq_none.mpr (fun e he => by simp [h e he])
    unfold clksel_to_clkid
    dsimp only
    rw [if_pos rfl, hf]
  · intro clksel mask hm h
    have hf : List.find? (fun e => e.clksel == clksel) npcm8xx_clksel_map = none :=
      List.find?_eq_none.mpr (fun e he => by simp [h e he])
    unfold clksel_to_clkid
    dsimp only
    rw [if_neg hm, hf]
  · intro G st clk hflags h
    rw [npcm_clk_get_fin]
    dsimp only
    simp [hflags, h, intToUlong, npcm_clk_request, CLK_COUNT]

/-- Witness for C6: shared-domain encoding 2 (CKSEL_REFCLK) is unmapped
and yields -EINVAL, and resolving the input of the CLK_AHB node with its
mux field at the unmapped encoding returns frequency 0. -/
theorem claim_C6_witness :
    clksel_to_clkid 2 UARTCKSEL = -22 ∧
    npcm_clk_get_fin (npcm_clk_get_rate 8) muxRefState ahbClk = (0, muxRefState) :=
  ⟨claim_C6.2.1 2 UARTCKSEL (by decide) (by decide),
   claim_C6.2.2 (npcm_clk_get_rate 8) muxRefState ahbClk (by decide) (by decide)⟩

end Npcm

namespace Npcm

/-- Claim C3: for a settable node and target rate, set_fout programs the
mux (state st1), resolves the input frequency I at st1, computes the
divisor dv = ceil(I / rate) = (I + rate - 1) / rate — at least 1 —
encodes the field dv - 1 (these nodes are all DIV_TYPE1), inserts it
into the divider register under div_mask, and returns I / dv recomputed
rather than re-read.  The arithmetic hypotheses delimit representable
frequencies: a nonzero target, a successfully resolved nonzero input,
no 64-bit wrap in DIV_ROUND_UP's sum, and a divisor that fits the u32
holding it. -/
theorem claim_C3 : ∀ (st : RegState) (id rate : Nat) (clk : NpcmClk) (st1 : RegState) (I dv : Nat),
    (id = CLK_SDHC ∨ id = CLK_UART1 ∨ id = CLK_UART2) →
    npcm_clk_get id = some clk →
    st1 = writel st CLKSEL (readl st CLKSEL &&& (U32MAX ^^^ clk.sel_mask) |||
      (clk.sel_val <<< (ffs clk.sel_mask - 1)) &&& clk.sel_mask) →
    I = (npcm_clk_get_fin (npcm_clk_get_rate 8) st1 clk).1 →
    dv = (I + rate - 1) / rate →
    0 < rate → 0 < I → I + rate ≤ 2 ^ 64 → dv < 2 ^ 32 →
    1 ≤ dv ∧
    (npcm_clk_set_fout (npcm_clk_get_rate 8) st id rate).1 = I / dv ∧
    (npcm_clk_set_fout (npcm_clk_get_rate 8) st id rate).2 =
      writel st1 clk.reg_clkdiv
        (readl st1 clk.reg_clkdiv &&& (U32MAX ^^^ clk.div_mask) |||
          ((dv - 1) <<< (ffs clk.div_mask - 1)) &&& clk.div_mask) := by
  intro st id rate clk st1 I dv hmem hget hst1 hI hdv hrate hIpos hle hdvlt
  have hdv1 : 1 ≤ dv := by
    rw [hdv]
    exact (Nat.one_le_div_iff hrate).mpr (by omega)
  rcases hmem with h | h | h <;> subst h <;>
    simp only [CLK_SDHC, CLK_UART1, CLK_UART2] at hget ⊢
  · rw [get10] at hget
    cases hget
    subst hst1
    refine ⟨hdv1, ?_⟩
    rw [npcm_clk_set_fout, get10]
    dsimp only
    rw [fin_state_rate, ← hI,
      Nat.mod_eq_of_lt (show I + rate - 1 < 2 ^ 64 by omega), ← hdv,
      Nat.mod_eq_of_lt hdvlt]
    have hclkdiv : (dv + (2 ^ 32 - 1)) % 2 ^ 32 = dv - 1 := by omega
    simp only [sdhcClk, DIV_TYPE1, hclkdiv]
    exact ⟨trivial, rfl⟩
  · rw [get8] at hget
    cases hget
    subst hst1
    refine ⟨hdv1, ?_⟩
    rw [npcm_clk_set_fout, get8]
    dsimp only
    rw [fin_state_rate, ← hI,
      Nat.mod_eq_of_lt (show I + rate - 1 < 2 ^ 64 by omega), ← hdv,
      Nat.mod_eq_of_lt hdvlt]
    have hclkdiv : (dv + (2 ^ 32 - 1)) % 2 ^ 32 = dv - 1 := by omega
    simp only [uart1Clk, DIV_TYPE1, hclkdiv]
    exact ⟨trivial, rfl⟩
  · rw [get9] at hget
    cases hget
    subst hst1
    refine ⟨hdv1, ?_⟩
    rw [npcm_clk_set_fout, get9]
    dsimp only
    rw [fin_state_rate, ← hI,
      Nat.mod_eq_of_lt (show I + rate - 1 < 2 ^ 64 by omega), ← hdv,
      Nat.mod_eq_of_lt hdvlt]
    have hclkdiv : (dv + (2 ^ 32 - 1)) % 2 ^ 32 = dv - 1 := by omega
    simp only [uart2Clk, DIV_TYPE1, hclkdiv]
    exact ⟨trivial, rfl⟩

/-- Register file after set_fout's mux write for CLK_SDHC starting from
the reference PLL configuration. -/
def sdhcMuxState : RegState :=
  writel pllState CLKSEL (readl pllState CLKSEL &&& (U32MAX ^^^ sdhcClk.sel_mask) |||
    (sdhcClk.sel_val <<< (ffs sdhcClk.sel_mask - 1)) &&& sdhcClk.sel_mask)

/-- Witness for C3: setting CLK_SDHC to 100 MHz with PLL0 at 800 MHz uses
divisor 8 and achieves 100 MHz. -/
theorem claim_C3_witness :
    1 ≤ 8 ∧
    (npcm_clk_set_fout (npcm_clk_get_rate 8) pllState CLK_SDHC 100000000).1 = 800000000 / 8 ∧
    (npcm_clk_set_fout (npcm_clk_get_rate 8) pllState CLK_SDHC 100000000).2 =
      writel sdhcMuxState sdhcClk.reg_clkdiv
        (readl sdhcMuxState sdhcClk.reg_clkdiv &&& (U32MAX ^^^ sdhcClk.div_mask) |||
          ((8 - 1) <<< (ffs sdhcClk.div_mask - 1)) &&& sdhcClk.div_mask) :=
  claim_C3 pllState CLK_SDHC 100000000 sdhcClk sdhcMuxState 800000000 8
    (Or.inl rfl) get10 rfl (by decide) (by decide) (by decide) (by decide)
    (by decide) (by decide)

end Npcm

namespace Npcm

theorem readl_writel (st : RegState) (a b v : Nat) :
    readl (writel st a v) b = if b = a then v % 2 ^ 32 else readl st b := by
  unfold readl writel
  split <;> omega

theorem insert_lt (x nm c : Nat) (hx : x < 2 ^ 32) (hc : c < 2 ^ 32) :
    (x &&& nm) ||| c < 2 ^ 32 :=
  Nat.or_lt_two_pow (lt_of_le_of_lt Nat.and_le_left hx) hc

theorem readl_lt (st : RegState) (off : Nat) : readl st off < 2 ^ 32 :=
  Nat.mod_lt _ (by norm_num)

theorem sel_field_extract (x c m nm s : Nat) (hnm : nm &&& m = 0) (hc : c &&& m = c) :
    (((x &&& nm) ||| c) &&& m) >>> s = c >>> s := by
  rw [Nat.and_distrib_right, Nat.and_assoc, hnm, Nat.and_zero, Nat.zero_or, hc]

/-- Claim C10: for every settable node (SDHC, UART1, UART2), mapping the
node's programmed selector value back through the selector map of the
node's mux domain yields exactly the node's static parent_id; and after
set_fout has programmed the mux, resolving the node's input frequency on
the post-state goes through precisely the table-declared parent's rate. -/
theorem claim_C10 : ∀ (id : Nat) (clk : NpcmClk),
    (id = CLK_SDHC ∨ id = CLK_UART1 ∨ id = CLK_UART2) →
    npcm_clk_get id = some clk →
    clksel_to_clkid clk.sel_val clk.sel_mask = clk.parent_id ∧
    ∀ (st : RegState) (rate : Nat),
      npcm_clk_get_fin (npcm_clk_get_rate 8)
        (npcm_clk_set_fout (npcm_clk_get_rate 8) st id rate).2 clk =
      npcm_clk_get_rate 8 (npcm_clk_set_fout (npcm_clk_get_rate 8) st id rate).2
        (intToUlong clk.parent_id) := by
  intro id clk hmem hget
  rcases hmem with h | h | h <;> subst h <;>
    simp only [CLK_SDHC, CLK_UART1, CLK_UART2] at hget ⊢
  · rw [get10] at hget
    cases hget
    refine ⟨by decide, ?_⟩
    intro st rate
    rw [npcm_clk_set_fout, get10]
    dsimp only
    rw [fin_state_rate]
    rw [npcm_clk_get_fin]
    dsimp only
    simp only [sdhcClk, SDCKSEL, CKSEL_PLL0, MMCCKDIV, CLKDIV1, CLKSEL, U32MAX,
      genmask, DIV_TYPE1, FIXED_SRC, CLK_PLL0,
      (by decide : (1 <<< 2 - 1) <<< 6 = (192 : Nat)),
      (by decide : (1 <<< 5 - 1) <<< 11 = (63488 : Nat)),
      (by decide : (4294967295 : Nat) ^^^ 192 = 4294967103),
      (by decide : (4294967295 : Nat) ^^^ 63488 = 4294903807),
      (by decide : ffs 192 = 7), ffs_MMCCKDIV,
      (by decide : (2 : Nat) &&& 1 = 0),
      (by decide : ((4 : Nat) = 8) = False), (by decide : ((4 : Nat) = 4) = True),
      (by decide : ((8 : Nat) = 4) = False),
      (by decide : ((0 : Nat) ≠ 0) = False),
      (by decide : ((2 : Nat) &&& 2 ≠ 0) = True),
      (by decide : (0 : Nat) <<< (7 - 1) &&& 192 = 0),
      Nat.or_zero,
      (by decide : (12 - 1 : Nat) = 11),
      if_true, if_false, Nat.cast_one,
      readl_writel]
    rw [Nat.mod_eq_of_lt (lt_of_le_of_lt Nat.and_le_left (readl_lt st 4))]
    rw [Nat.and_assoc, (by decide : (4294967103 : Nat) &&& 192 = 0), Nat.and_zero,
      Nat.zero_shiftRight]
    rw [(by decide : clksel_to_clkid 0 192 = 1)]
    rw [(by decide : intToUlong 1 = 1)]
    rw [(by decide : npcm_clk_request 1 = 0)]
    rw [if_neg (show ¬((0 : Int) ≠ 0) from by decide)]
  · rw [get8] at hget
    cases hget
    refine ⟨by decide, ?_⟩
    intro st rate
    rw [npcm_clk_set_fout, get8]
    dsimp only
    rw [fin_state_rate]
    rw [npcm_clk_get_fin]
    dsimp only
    simp only [uart1Clk, UARTCKSEL, CKSEL_PLL2, UARTDIV1, CLKDIV1, CLKSEL, U32MAX,
      genmask, DIV_TYPE1, FIXED_SRC, CLK_PLL2DIV2,
      (by decide : (1 <<< 2 - 1) <<< 8 = (768 : Nat)),
      (by decide : (1 <<< 5 - 1) <<< 16 = (2031616 : Nat)),
      (by decide : (4294967295 : Nat) ^^^ 768 = 4294966527),
      (by decide : (4294967295 : Nat) ^^^ 2031616 = 4292935679),
      (by decide : ffs 768 = 9), ffs_UARTDIV1,
      (by decide : (2 : Nat) &&& 1 = 0),
      (by decide : ((4 : Nat) = 8) = False), (by decide : ((4 : Nat) = 4) = True),
      (by decide : ((8 : Nat) = 4) = False),
      (by decide : ((0 : Nat) ≠ 0) = False),
      (by decide : ((2 : Nat) &&& 2 ≠ 0) = True),
      (by decide : (3 : Nat) <<< (9 - 1) &&& 768 = 768),
      if_true, if_false, Nat.cast_ofNat,
      readl_writel]
    rw [Nat.mod_eq_of_lt (insert_lt _ _ _ (readl_lt st 4) (by norm_num))]
    rw [sel_field_extract _ _ _ _ _ (by decide) (by decide)]
    rw [(by decide : (768 : Nat) >>> (9 - 1) = 3)]
    rw [(by decide : clksel_to_clkid 3 768 = 4)]
    rw [(by decide : intToUlong 4 = 4)]
    rw [(by decide : npcm_clk_request 4 = 0)]
    rw [if_neg (show ¬((0 : Int) ≠ 0) from by decide)]
  · rw [get9] at hget
    cases hget
    refine ⟨by decide, ?_⟩
    intro st rate
    rw [npcm_clk_set_fout, get9]
    dsimp only
    rw [fin_state_rate]
    rw [npcm_clk_get_fin]
    dsimp only
    simp only [uart2Clk, UARTCKSEL, CKSEL_PLL2, UARTDIV2, CLKDIV3, CLKSEL, U32MAX,
      genmask, DIV_TYPE1, FIXED_SRC, CLK_PLL2DIV2,
      (by decide : (1 <<< 2 - 1) <<< 8 = (768 : Nat)),
      (by decide : (1 <<< 5 - 1) <<< 11 = (63488 : Nat)),
      (by decide : (4294967295 : Nat) ^^^ 768 = 4294966527),
      (by decide : (4294967295 : Nat) ^^^ 63488 = 4294903807),
      (by decide : ffs 768 = 9), ffs_MMCCKDIV,
      (by decide : (2 : Nat) &&& 1 = 0),
      (by decide : ((4 : Nat) = 88) = False), (by decide : ((4 : Nat) = 4) = True),
      (by decide : ((88 : Nat) = 4) = False),
      (by decide : ((0 : Nat) ≠ 0) = False),
      (by decide : ((2 : Nat) &&& 2 ≠ 0) = True),
      (by decide : (3 : Nat) <<< (9 - 1) &&& 768 = 768),
      if_true, if_false, Nat.cast_ofNat,
      readl_writel]
    rw [Nat.mod_eq_of_lt (insert_lt _ _ _ (readl_lt st 4) (by norm_num))]
    rw [sel_field_extract _ _ _ _ _ (by decide) (by decide)]
    rw [(by decide : (768 : Nat) >>> (9 - 1) = 3)]
    rw [(by decide : clksel_to_clkid 3 768 = 4)]
    rw [(by decide : intToUlong 4 = 4)]
    rw [(by decide : npcm_clk_request 4 = 0)]
    rw [if_neg (show ¬((0 : Int) ≠ 0) from by decide)]

/-- Witness for C10: the SDHC node's programmed selector maps back to
CLK_PLL0, its declared parent, also after a concrete set_fout. -/
theorem claim_C10_witness :
    clksel_to_clkid sdhcClk.sel_val sdhcClk.sel_mask = sdhcClk.parent_id ∧
    npcm_clk_get_fin (npcm_clk_get_rate 8)
      (npcm_clk_set_fout (npcm_clk_get_rate 8) pllState CLK_SDHC 100000000).2 sdhcClk =
    npcm_clk_get_rate 8
      (npcm_clk_set_fout (npcm_clk_get_rate 8) pllState CLK_SDHC 100000000).2
      (intToUlong sdhcClk.parent_id) :=
  ⟨(claim_C10 CLK_SDHC sdhcClk (Or.inl rfl) get10).1,
   (claim_C10 CLK_SDHC sdhcClk (Or.inl rfl) get10).2 pllState 100000000⟩

end Npcm

namespace Npcm

theorem and_nm_idem (x nm : Nat) : (x &&& nm) &&& nm = x &&& nm := by
  rw [Nat.and_assoc, Nat.and_self]

theorem masked_and_disjoint (y m nm : Nat) (h : m &&& nm = 0) : (y &&& m) &&& nm = 0 := by
  rw [Nat.and_assoc, h, Nat.and_zero]

theorem insert_reinsert (x c nm : Nat) (hc : c &&& nm = 0) :
    (((x &&& nm) ||| c) &&& nm) ||| c = (x &&& nm) ||| c := by
  rw [Nat.and_distrib_right, Nat.and_assoc, Nat.and_self, hc, Nat.or_zero]

theorem writel_shadow_pair (st : RegState) (a b v w : Nat) :
    writel (writel (writel (writel st a v) b w) a v) b w = writel (writel st a v) b w := by
  funext o
  unfold writel
  by_cases h1 : o = b <;> by_cases h2 : o = a <;> simp [h1, h2]

/-- Claim C8: invoking set_rate twice in succession on a settable node
with the same target yields the same achieved rate both times and leaves
the identical register file (hence identical mux-select and divider
fields) after each invocation. -/
theorem claim_C8 : ∀ (st : RegState) (id rate : Nat),
    (id = CLK_SDHC ∨ id = CLK_UART1 ∨ id = CLK_UART2) →
    (npcm_clk_set_rate (npcm_clk_set_rate st id rate).2 id rate).1 =
      (npcm_clk_set_rate st id rate).1 ∧
    (npcm_clk_set_rate (npcm_clk_set_rate st id rate).2 id rate).2 =
      (npcm_clk_set_rate st id rate).2 := by
  intro st id rate hmem
  rcases hmem with h | h | h <;> subst h <;>
    simp only [npcm_clk_set_rate, CLK_SDHC, CLK_UART1, CLK_UART2,
      eq_self_iff_true, true_or, or_true, if_true]
  · rw [npcm_clk_set_fout, get10]
    dsimp only
    rw [fin_state_rate]
    rw [npcm_clk_set_fout, get10]
    dsimp only
    rw [fin_state_rate]
    simp only [npcm_clk_get_fin]
    simp only [sdhcClk, SDCKSEL, CKSEL_PLL0, MMCCKDIV, CLKDIV1, CLKSEL, U32MAX,
      genmask, DIV_TYPE1, FIXED_SRC, CLK_PLL0,
      (by decide : (1 <<< 2 - 1) <<< 6 = (192 : Nat)),
      (by decide : (1 <<< 5 - 1) <<< 11 = (63488 : Nat)),
      (by decide : (4294967295 : Nat) ^^^ 192 = 4294967103),
      (by decide : (4294967295 : Nat) ^^^ 63488 = 4294903807),
      (by decide : ffs 192 = 7), ffs_MMCCKDIV,
      (by decide : (2 : Nat) &&& 1 = 0),
      (by decide : ((4 : Nat) = 8) = False), (by decide : ((4 : Nat) = 4) = True),
      (by decide : ((8 : Nat) = 4) = False), (by decide : ((8 : Nat) = 8) = True),
      (by decide : ((12 : Nat) = 4) = False), (by decide : ((12 : Nat) = 8) = False),
      (by decide : ((0 : Nat) ≠ 0) = False),
      (by decide : ((2 : Nat) &&& 2 ≠ 0) = True),
      (by decide : (0 : Nat) <<< (7 - 1) &&& 192 = 0),
      Nat.or_zero,
      (by decide : (12 - 1 : Nat) = 11),
      if_true, if_false, Nat.cast_one,
      readl_writel]
    rw [Nat.mod_eq_of_lt (lt_of_le_of_lt Nat.and_le_left (readl_lt st 4))]
    rw [and_nm_idem]
    rw [Nat.mod_eq_of_lt (lt_of_le_of_lt Nat.and_le_left (readl_lt st 4))]
    rw [Nat.and_assoc, (by decide : (4294967103 : Nat) &&& 192 = 0), Nat.and_zero,
      Nat.zero_shiftRight]
    rw [(by decide : clksel_to_clkid 0 192 = 1)]
    rw [(by decide : intToUlong 1 = 1)]
    rw [(by decide : npcm_clk_request 1 = 0)]
    simp only [(by decide : (((0 : Int) ≠ 0)) = False), if_false]
    have hp : ∀ T : RegState, npcm_clk_get_rate 8 T 1 =
        (25000000 * ((readl T 12 &&& 268369920) >>> 16) % 2 ^ 64 /
          ((readl T 12 &&& 63) * ((readl T 12 &&& 1792) >>> 8) *
            ((readl T 12 &&& 57344) >>> 13) % 2 ^ 32), T) := by
      intro T
      have h := getRate_pll0 6 T
      simp only [show (6 + 2 : Nat) = 8 from rfl, show CLK_PLL0 = 1 from rfl,
        PLLCON0, PLLCON_INDV, PLLCON_FBDV, PLLCON_OTDV1, PLLCON_OTDV2, genmask,
        (by decide : (1 <<< 6 - 1 : Nat) = 63),
        (by decide : (1 <<< 12 - 1) <<< 16 = (268369920 : Nat)),
        (by decide : (1 <<< 3 - 1) <<< 8 = (1792 : Nat)),
        (by decide : (1 <<< 3 - 1) <<< 13 = (57344 : Nat))] at h
      exact h
    simp only [hp]
    simp only [readl_writel,
      (by decide : ((12 : Nat) = 4) = False), (by decide : ((12 : Nat) = 8) = False),
      if_true, if_false]
    rw [Nat.mod_eq_of_lt (insert_lt _ _ _ (readl_lt st 8)
      (lt_of_le_of_lt Nat.and_le_right (by norm_num)))]
    rw [insert_reinsert _ _ _ (masked_and_disjoint _ _ _ (by decide))]
    exact ⟨trivial, writel_shadow_pair st 4 8 _ _⟩
  · rw [npcm_clk_set_fout, get8]
    dsimp only
    rw [fin_state_rate]
    rw [npcm_clk_set_fout, get8]
    dsimp only
    rw [fin_state_rate]
    simp only [npcm_clk_get_fin]
    simp only [uart1Clk, UARTCKSEL, CKSEL_PLL2, UARTDIV1, CLKDIV1, CLKSEL, U32MAX,
      genmask, DIV_TYPE1, FIXED_SRC, CLK_PLL2DIV2,
      (by decide : (1 <<< 2 - 1) <<< 8 = (768 : Nat)),
      (by decide : (1 <<< 5 - 1) <<< 16 = (2031616 : Nat)),
      (by decide : (4294967295 : Nat) ^^^ 768 = 4294966527),
      (by decide : (4294967295 : Nat) ^^^ 2031616 = 4292935679),
      (by decide : ffs 768 = 9), ffs_UARTDIV1,
      (by decide : (2 : Nat) &&& 1 = 0),
      (by decide : ((4 : Nat) = 8) = False), (by decide : ((4 : Nat) = 4) = True),
      (by decide : ((8 : Nat) = 4) = False), (by decide : ((8 : Nat) = 8) = True),
      (by decide : ((0 : Nat) ≠ 0) = False),
      (by decide : ((2 : Nat) &&& 2 ≠ 0) = True),
      (by decide : (3 : Nat) <<< (9 - 1) &&& 768 = 768),
      if_true, if_false, Nat.cast_ofNat,
      readl_writel]
    rw [Nat.mod_eq_of_lt (insert_lt _ _ _ (readl_lt st 4) (by norm_num))]
    rw [insert_reinsert _ _ _ (by decide : (768 : Nat) &&& 4294966527 = 0)]
    rw [Nat.mod_eq_of_lt (insert_lt _ _ _ (readl_lt st 4) (by norm_num))]
    rw [sel_field_extract _ _ _ _ _ (by decide) (by decide)]
    rw [(by decide : (768 : Nat) >>> (9 - 1) = 3)]
    rw [(by decide : clksel_to_clkid 3 768 = 4)]
    rw [(by decide : intToUlong 4 = 4)]
    rw [(by decide : npcm_clk_request 4 = 0)]
    simp only [(by decide : (((0 : Int) ≠ 0)) = False), if_false]
    have hp : ∀ T : RegState, npcm_clk_get_rate 8 T 4 =
        (25000000 * ((readl T 84 &&& 268369920) >>> 16) % 2 ^ 64 /
          ((readl T 84 &&& 63) * ((readl T 84 &&& 1792) >>> 8) *
            ((readl T 84 &&& 57344) >>> 13) % 2 ^ 32) / 2, T) := by
      intro T
      have h := getRate_pll2div2 6 T
      simp only [show (6 + 2 : Nat) = 8 from rfl, show CLK_PLL2DIV2 = 4 from rfl,
        PLLCON2, PLLCON_INDV, PLLCON_FBDV, PLLCON_OTDV1, PLLCON_OTDV2, genmask,
        (by decide : (1 <<< 6 - 1 : Nat) = 63),
        (by decide : (1 <<< 12 - 1) <<< 16 = (268369920 : Nat)),
        (by decide : (1 <<< 3 - 1) <<< 8 = (1792 : Nat)),
        (by decide : (1 <<< 3 - 1) <<< 13 = (57344 : Nat))] at h
      exact h
    simp only [hp]
    simp only [readl_writel,
      (by decide : ((84 : Nat) = 4) = False), (by decide : ((84 : Nat) = 8) = False),
      if_true, if_false]
    rw [Nat.mod_eq_of_lt (insert_lt _ _ _ (readl_lt st 8)
      (lt_of_le_of_lt Nat.and_le_right (by norm_num)))]
    rw [insert_reinsert _ _ _ (masked_and_disjoint _ _ _ (by decide))]
    exact ⟨trivial, writel_shadow_pair st 4 8 _ _⟩
  · rw [npcm_clk_set_fout, get9]
    dsimp only
    rw [fin_state_rate]
    rw [npcm_clk_set_fout, get9]
    dsimp only
    rw [fin_state_rate]
    simp only [npcm_clk_get_fin]
    simp only [uart2Clk, UARTCKSEL, CKSEL_PLL2, UARTDIV2, CLKDIV3, CLKSEL, U32MAX,
      genmask, DIV_TYPE1, FIXED_SRC, CLK_PLL2DIV2,
      (by decide : (1 <<< 2 - 1) <<< 8 = (768 : Nat)),
      (by decide : (1 <<< 5 - 1) <<< 11 = (63488 : Nat)),
      (by decide : (4294967295 : Nat) ^^^ 768 = 4294966527),
      (by decide : (4294967295 : Nat) ^^^ 63488 = 4294903807),
      (by decide : ffs 768 = 9), ffs_MMCCKDIV,
      (by decide : (2 : Nat) &&& 1 = 0),
      (by decide : ((4 : Nat) = 88) = False), (by decide : ((4 : Nat) = 4) = True),
      (by decide : ((88 : Nat) = 4) = False), (by decide : ((88 : Nat) = 88) = True),
      (by decide : ((0 : Nat) ≠ 0) = False),
      (by decide : ((2 : Nat) &&& 2 ≠ 0) = True),
      (by decide : (3 : Nat) <<< (9 - 1) &&& 768 = 768),
      if_true, if_false, Nat.cast_ofNat,
      readl_writel]
    rw [Nat.mod_eq_of_lt (insert_lt _ _ _ (readl_lt st 4) (by norm_num))]
    rw [insert_reinsert _ _ _ (by decide : (768 : Nat) &&& 4294966527 = 0)]
    rw [Nat.mod_eq_of_lt (insert_lt _ _ _ (readl_lt st 4) (by norm_num))]
    rw [sel_field_extract _ _ _ _ _ (by decide) (by decide)]
    rw [(by decide : (768 : Nat) >>> (9 - 1) = 3)]
    rw [(by decide : clksel_to_clkid 3 768 = 4)]
    rw [(by decide : intToUlong 4 = 4)]
    rw [(by decide : npcm_clk_request 4 = 0)]
    simp only [(by decide : (((0 : Int) ≠ 0)) = False), if_false]
    have hp : ∀ T : RegState, npcm_clk_get_rate 8 T 4 =
        (25000000 * ((readl T 84 &&& 268369920) >>> 16) % 2 ^ 64 /
          ((readl T 84 &&& 63) * ((readl T 84 &&& 1792) >>> 8) *
            ((readl T 84 &&& 57344) >>> 13) % 2 ^ 32) / 2, T) := by
      intro T
      have h := getRate_pll2div2 6 T
      simp only [show (6 + 2 : Nat) = 8 from rfl, show CLK_PLL2DIV2 = 4 from rfl,
        PLLCON2, PLLCON_INDV, PLLCON_FBDV, PLLCON_OTDV1, PLLCON_OTDV2, genmask,
        (by decide : (1 <<< 6 - 1 : Nat) = 63),
        (by decide : (1 <<< 12 - 1) <<< 16 = (268369920 : Nat)),
        (by decide : (1 <<< 3 - 1) <<< 8 = (1792 : Nat)),
        (by decide : (1 <<< 3 - 1) <<< 13 = (57344 : Nat))] at h
      exact h
    simp only [hp]
    simp only [readl_writel,
      (by decide : ((84 : Nat) = 4) = False), (by decide : ((84 : Nat) = 88) = False),
      if_true, if_false]
    rw [Nat.mod_eq_of_lt (insert_lt _ _ _ (readl_lt st 88)
      (lt_of_le_of_lt Nat.and_le_right (by norm_num)))]
    rw [insert_reinsert _ _ _ (masked_and_disjoint _ _ _ (by decide))]
    exact ⟨trivial, writel_shadow_pair st 4 88 _ _⟩

/-- Witness for C8: setting CLK_SDHC to 100 MHz twice from the reference
PLL configuration is idempotent. -/
theorem claim_C8_witness :
    (npcm_clk_set_rate (npcm_clk_set_rate pllState CLK_SDHC 100000000).2
        CLK_SDHC 100000000).1 =
      (npcm_clk_set_rate pllState CLK_SDHC 100000000).1 ∧
    (npcm_clk_set_rate (npcm_clk_set_rate pllState CLK_SDHC 100000000).2
        CLK_SDHC 100000000).2 =
      (npcm_clk_set_rate pllState CLK_SDHC 100000000).2 :=
  claim_C8 pllState CLK_SDHC 100000000 (Or.inl rfl)

end Npcm

namespace Npcm

theorem shiftLeft_and_genmask_extract (x w l : Nat) :
    ((x <<< l) &&& ((2 ^ w - 1) <<< l)) >>> l = x % 2 ^ w := by
  apply Nat.eq_of_testBit_eq
  intro i
  simp only [Nat.testBit_shiftRight, Nat.testBit_and, Nat.testBit_shiftLeft,
    Nat.testBit_two_pow_sub_one, Nat.testBit_mod_two_pow]
  have h2 : l + i - l = i := by omega
  simp [h2, Nat.le_add_right]
  by_cases h : i < w <;> simp [h]

theorem extract_back_mmc (x : Nat) : ((x <<< 11) &&& 63488) >>> 11 = x % 32 := by
  have h := shiftLeft_and_genmask_extract x 5 11
  rw [(by decide : ((2 : Nat) ^ 5 - 1) <<< 11 = 63488),
    (by norm_num : (2 : Nat) ^ 5 = 32)] at h
  exact h

theorem extract_back_uart1 (x : Nat) : ((x <<< 16) &&& 2031616) >>> 16 = x % 32 := by
  have h := shiftLeft_and_genmask_extract x 5 16
  rw [(by decide : ((2 : Nat) ^ 5 - 1) <<< 16 = 2031616),
    (by norm_num : (2 : Nat) ^ 5 = 32)] at h
  exact h

/-- Counterexample for C4: set_rate(CLK_SDHC, 100 MHz) from the reference
PLL configuration returns the achieved rate 100000000, but a subsequent
get_rate(CLK_SDHC) does not return that value: the dispatcher has no case
for the settable ids and answers -ENOSYS. -/
theorem claim_C4_cex :
    (npcm_clk_set_rate pllState CLK_SDHC 100000000).1 = 100000000 ∧
    (npcm_clk_get_rate 8 (npcm_clk_set_rate pllState CLK_SDHC 100000000).2 CLK_SDHC).1 =
      ENOSYS_ULONG ∧
    (100000000 : Nat) ≠ ENOSYS_ULONG := by
  exact ⟨by decide, by decide, by decide⟩

/-- Claim C4 as amended: after set_rate succeeds on a settable node,
recomputing that node's output frequency with the internal divided-node
resolver npcm_clk_get_fout on the post-state returns exactly the value
set_rate returned, which for these DIV_TYPE1 nodes is I / ceil(I/target);
the public get_rate, however, has no case for the settable ids and
returns -ENOSYS on them.  The hypotheses delimit representable inputs:
nonzero target, nonzero resolved input I (taken at the mux-programmed
state st1), no 64-bit wrap in the DIV_ROUND_UP sum, and a divisor that
fits the 5-bit divider fields of these nodes. -/
theorem claim_C4 : ∀ (st : RegState) (id rate : Nat) (clk : NpcmClk) (st1 : RegState) (I dv : Nat),
    (id = CLK_SDHC ∨ id = CLK_UART1 ∨ id = CLK_UART2) →
    npcm_clk_get id = some clk →
    st1 = writel st CLKSEL (readl st CLKSEL &&& (U32MAX ^^^ clk.sel_mask) |||
      (clk.sel_val <<< (ffs clk.sel_mask - 1)) &&& clk.sel_mask) →
    I = (npcm_clk_get_fin (npcm_clk_get_rate 8) st1 clk).1 →
    dv = (I + rate - 1) / rate →
    0 < rate → 0 < I → I + rate ≤ 2 ^ 64 → dv ≤ 32 →
    (npcm_clk_get_fout (npcm_clk_get_rate 8) (npcm_clk_set_rate st id rate).2 id).1 =
      (npcm_clk_set_rate st id rate).1 ∧
    (npcm_clk_set_rate st id rate).1 = I / dv ∧
    (npcm_clk_get_rate 8 (npcm_clk_set_rate st id rate).2 id).1 = ENOSYS_ULONG := by
  intro st id rate clk st1 I dv hmem hget hst1 hI hdv hrate hIpos hle hdv32
  have hdv1 : 1 ≤ dv := by
    rw [hdv]
    exact (Nat.one_le_div_iff hrate).mpr (by omega)
  rcases hmem with h | h | h <;> subst h
  · rw [show CLK_SDHC = 10 from rfl, get10] at hget
    injection hget with hck
    subst hck
    subst hst1
    simp only [npcm_clk_set_rate, CLK_SDHC, eq_self_iff_true, true_or, or_true, if_true]
    rw [npcm_clk_set_fout, get10]
    dsimp only
    rw [fin_state_rate]
    rw [npcm_clk_get_fout, get10]
    dsimp only
    rw [fin_state_rate]
    rw [← hI]
    rw [Nat.mod_eq_of_lt (show I + rate - 1 < 2 ^ 64 by omega), ← hdv,
      Nat.mod_eq_of_lt (show dv < 2 ^ 32 by omega)]
    rw [(show (dv + (2 ^ 32 - 1)) % 2 ^ 32 = dv - 1 by omega)]
    simp only [npcm_clk_get_fin]
    simp only [sdhcClk, SDCKSEL, CKSEL_PLL0, MMCCKDIV, CLKDIV1, CLKSEL, U32MAX,
      genmask, DIV_TYPE1, FIXED_SRC, CLK_PLL0,
      (by decide : (1 <<< 2 - 1) <<< 6 = (192 : Nat)),
      (by decide : (1 <<< 5 - 1) <<< 11 = (63488 : Nat)),
      (by decide : (4294967295 : Nat) ^^^ 192 = 4294967103),
      (by decide : (4294967295 : Nat) ^^^ 63488 = 4294903807),
      (by decide : ffs 192 = 7), ffs_MMCCKDIV,
      (by decide : (2 : Nat) &&& 1 = 0),
      (by decide : ((4 : Nat) = 8) = False), (by decide : ((4 : Nat) = 4) = True),
      (by decide : ((8 : Nat) = 4) = False), (by decide : ((8 : Nat) = 8) = True),
      (by decide : ((12 : Nat) = 4) = False), (by decide : ((12 : Nat) = 8) = False),
      (by decide : ((0 : Nat) ≠ 0) = False),
      (by decide : ((2 : Nat) &&& 2 ≠ 0) = True),
      (by decide : (0 : Nat) <<< (7 - 1) &&& 192 = 0),
      Nat.or_zero,
      (by decide : (12 - 1 : Nat) = 11),
      if_true, if_false, Nat.cast_one,
      readl_writel]
    rw [Nat.mod_eq_of_lt (lt_of_le_of_lt Nat.and_le_left (readl_lt st 4))]
    rw [Nat.and_assoc, (by decide : (4294967103 : Nat) &&& 192 = 0), Nat.and_zero,
      Nat.zero_shiftRight]
    rw [(by decide : clksel_to_clkid 0 192 = 1)]
    rw [(by decide : intToUlong 1 = 1)]
    rw [(by decide : npcm_clk_request 1 = 0)]
    simp only [(by decide : (((0 : Int) ≠ 0)) = False), if_false]
    have hp : ∀ T : RegState, npcm_clk_get_rate 8 T 1 =
        (25000000 * ((readl T 12 &&& 268369920) >>> 16) % 2 ^ 64 /
          ((readl T 12 &&& 63) * ((readl T 12 &&& 1792) >>> 8) *
            ((readl T 12 &&& 57344) >>> 13) % 2 ^ 32), T) := by
      intro T
      have h := getRate_pll0 6 T
      simp only [show (6 + 2 : Nat) = 8 from rfl, show CLK_PLL0 = 1 from rfl,
        PLLCON0, PLLCON_INDV, PLLCON_FBDV, PLLCON_OTDV1, PLLCON_OTDV2, genmask,
        (by decide : (1 <<< 6 - 1 : Nat) = 63),
        (by decide : (1 <<< 12 - 1) <<< 16 = (268369920 : Nat)),
        (by decide : (1 <<< 3 - 1) <<< 8 = (1792 : Nat)),
        (by decide : (1 <<< 3 - 1) <<< 13 = (57344 : Nat))] at h
      exact h
    simp only [hp]
    simp only [readl_writel,
      (by decide : ((12 : Nat) = 4) = False), (by decide : ((12 : Nat) = 8) = False),
      if_true, if_false]
    simp only [PRE_DIV2, (by decide : ((2 : Nat) &&& 8 ≠ 0) = False), if_false]
    rw [Nat.mod_eq_of_lt (insert_lt _ _ _ (readl_lt st 8)
      (lt_of_le_of_lt Nat.and_le_right (by norm_num)))]
    rw [sel_field_extract _ _ _ _ _ (by decide) (and_nm_idem _ _)]
    rw [extract_back_mmc]
    rw [Nat.mod_eq_of_lt (show dv - 1 < 32 by omega)]
    rw [(show dv - 1 + 1 = dv by omega)]
    rw [Nat.mod_eq_of_lt (show dv < 2 ^ 32 by omega)]
    have hIE : I = 25000000 * ((readl st 12 &&& 268369920) >>> 16) % 2 ^ 64 /
        ((readl st 12 &&& 63) * ((readl st 12 &&& 1792) >>> 8) *
          ((readl st 12 &&& 57344) >>> 13) % 2 ^ 32) := by
      rw [hI, npcm_clk_get_fin]
      dsimp only
      simp only [sdhcClk, SDCKSEL, CKSEL_PLL0, CLKSEL, U32MAX, genmask, DIV_TYPE1, FIXED_SRC,
        (by decide : (1 <<< 2 - 1) <<< 6 = (192 : Nat)),
        (by decide : (4294967295 : Nat) ^^^ 192 = 4294967103),
        (by decide : ffs 192 = 7),
        (by decide : (2 : Nat) &&& 1 = 0),
        (by decide : ((4 : Nat) = 4) = True),
        (by decide : ((0 : Nat) ≠ 0) = False),
        (by decide : (0 : Nat) <<< (7 - 1) &&& 192 = 0),
        Nat.or_zero, if_true, if_false,
        readl_writel]
      rw [Nat.mod_eq_of_lt (lt_of_le_of_lt Nat.and_le_left (readl_lt st 4))]
      rw [Nat.and_assoc, (by decide : (4294967103 : Nat) &&& 192 = 0), Nat.and_zero,
        Nat.zero_shiftRight]
      rw [(by decide : clksel_to_clkid 0 192 = 1)]
      rw [(by decide : intToUlong 1 = 1)]
      rw [(by decide : npcm_clk_request 1 = 0)]
      simp only [(by decide : (((0 : Int) ≠ 0)) = False), if_false]
      simp only [hp]
      simp only [readl_writel, (by decide : ((12 : Nat) = 4) = False), if_true, if_false]
    rw [hIE]
    rw [npcm_clk_get_rate]
    simp only [CLK_REFCLK, CLK_PLL0, CLK_PLL1, CLK_PLL2, CLK_PLL2DIV2, CLK_AHB,
      CLK_APB2, CLK_APB5,
      (by decide : ((10 : Nat) = 0) = False),
      (by decide : ((10 : Nat) = 1 ∨ (10 : Nat) = 2 ∨ (10 : Nat) = 3 ∨ (10 : Nat) = 4) = False),
      (by decide : ((10 : Nat) = 5 ∨ (10 : Nat) = 6 ∨ (10 : Nat) = 7) = False),
      if_false]
    exact ⟨trivial, trivial, trivial⟩
  · rw [show CLK_UART1 = 8 from rfl, get8] at hget
    injection hget with hck
    subst hck
    subst hst1
    simp only [npcm_clk_set_rate, CLK_UART1, eq_self_iff_true, true_or, or_true, if_true]
    rw [npcm_clk_set_fout, get8]
    dsimp only
    rw [fin_state_rate]
    rw [npcm_clk_get_fout, get8]
    dsimp only
    rw [fin_state_rate]
    rw [← hI]
    rw [Nat.mod_eq_of_lt (show I + rate - 1 < 2 ^ 64 by omega), ← hdv,
      Nat.mod_eq_of_lt (show dv < 2 ^ 32 by omega)]
    rw [(show (dv + (2 ^ 32 - 1)) % 2 ^ 32 = dv - 1 by omega)]
    simp only [npcm_clk_get_fin]
    simp only [uart1Clk, UARTCKSEL, CKSEL_PLL2, UARTDIV1, CLKDIV1, CLKSEL, U32MAX,
      genmask, DIV_TYPE1, FIXED_SRC, CLK_PLL2DIV2,
      (by decide : (1 <<< 2 - 1) <<< 8 = (768 : Nat)),
      (by decide : (1 <<< 5 - 1) <<< 16 = (2031616 : Nat)),
      (by decide : (4294967295 : Nat) ^^^ 768 = 4294966527),
      (by decide : (4294967295 : Nat) ^^^ 2031616 = 4292935679),
      (by decide : ffs 768 = 9), ffs_UARTDIV1,
      (by decide : (2 : Nat) &&& 1 = 0),
      (by decide : ((4 : Nat) = 8) = False), (by decide : ((4 : Nat) = 4) = True),
      (by decide : ((8 : Nat) = 4) = False), (by decide : ((8 : Nat) = 8) = True),
      (by decide : ((84 : Nat) = 4) = False), (by decide : ((84 : Nat) = 8) = False),
      (by decide : ((0 : Nat) ≠ 0) = False),
      (by decide : ((2 : Nat) &&& 2 ≠ 0) = True),
      (by decide : (3 : Nat) <<< (9 - 1) &&& 768 = 768),
      (by decide : (17 - 1 : Nat) = 16),
      if_true, if_false, Nat.cast_ofNat,
      readl_writel]
    rw [Nat.mod_eq_of_lt (insert_lt _ _ _ (readl_lt st 4) (by norm_num))]
    rw [sel_field_extract _ _ _ _ _ (by decide) (by decide)]
    rw [(by decide : (768 : Nat) >>> 8 = 3)]
    rw [(by decide : clksel_to_clkid 3 768 = 4)]
    rw [(by decide : intToUlong 4 = 4)]
    rw [(by decide : npcm_clk_request 4 = 0)]
    simp only [(by decide : (((0 : Int) ≠ 0)) = False), if_false]
    have hp : ∀ T : RegState, npcm_clk_get_rate 8 T 4 =
        (25000000 * ((readl T 84 &&& 268369920) >>> 16) % 2 ^ 64 /
          ((readl T 84 &&& 63) * ((readl T 84 &&& 1792) >>> 8) *
            ((readl T 84 &&& 57344) >>> 13) % 2 ^ 32) / 2, T) := by
      intro T
      have h := getRate_pll2div2 6 T
      simp only [show (6 + 2 : Nat) = 8 from rfl, show CLK_PLL2DIV2 = 4 from rfl,
        PLLCON2, PLLCON_INDV, PLLCON_FBDV, PLLCON_OTDV1, PLLCON_OTDV2, genmask,
        (by decide : (1 <<< 6 - 1 : Nat) = 63),
        (by decide : (1 <<< 12 - 1) <<< 16 = (268369920 : Nat)),
        (by decide : (1 <<< 3 - 1) <<< 8 = (1792 : Nat)),
        (by decide : (1 <<< 3 - 1) <<< 13 = (57344 : Nat))] at h
      exact h
    simp only [hp]
    simp only [readl_writel,
      (by decide : ((84 : Nat) = 4) = False), (by decide : ((84 : Nat) = 8) = False),
      if_true, if_false]
    simp only [PRE_DIV2, (by decide : ((2 : Nat) &&& 8 ≠ 0) = False), if_false]
    rw [Nat.mod_eq_of_lt (insert_lt _ _ _ (readl_lt st 8)
      (lt_of_le_of_lt Nat.and_le_right (by norm_num)))]
    rw [sel_field_extract _ _ _ _ _ (by decide) (and_nm_idem _ _)]
    rw [extract_back_uart1]
    rw [Nat.mod_eq_of_lt (show dv - 1 < 32 by omega)]
    rw [(show dv - 1 + 1 = dv by omega)]
    rw [Nat.mod_eq_of_lt (show dv < 2 ^ 32 by omega)]
    have hIE : I = 25000000 * ((readl st 84 &&& 268369920) >>> 16) % 2 ^ 64 /
        ((readl st 84 &&& 63) * ((readl st 84 &&& 1792) >>> 8) *
          ((readl st 84 &&& 57344) >>> 13) % 2 ^ 32) / 2 := by
      rw [hI, npcm_clk_get_fin]
      dsimp only
      simp only [uart1Clk, UARTCKSEL, CKSEL_PLL2, CLKSEL, U32MAX, genmask, DIV_TYPE1, FIXED_SRC,
        (by decide : (1 <<< 2 - 1) <<< 8 = (768 : Nat)),
        (by decide : (4294967295 : Nat) ^^^ 768 = 4294966527),
        (by decide : ffs 768 = 9),
        (by decide : (2 : Nat) &&& 1 = 0),
        (by decide : ((4 : Nat) = 4) = True),
        (by decide : ((0 : Nat) ≠ 0) = False),
        (by decide : (3 : Nat) <<< (9 - 1) &&& 768 = 768),
        if_true, if_false,
        readl_writel]
      rw [Nat.mod_eq_of_lt (insert_lt _ _ _ (readl_lt st 4) (by norm_num))]
      rw [sel_field_extract _ _ _ _ _ (by decide) (by decide)]
      rw [(by decide : (768 : Nat) >>> 8 = 3)]
      rw [(by decide : clksel_to_clkid 3 768 = 4)]
      rw [(by decide : intToUlong 4 = 4)]
      rw [(by decide : npcm_clk_request 4 = 0)]
      simp only [(by decide : (((0 : Int) ≠ 0)) = False), if_false]
      simp only [hp]
      simp only [readl_writel, (by decide : ((84 : Nat) = 4) = False), if_true, if_false]
    rw [hIE]
    rw [npcm_clk_get_rate]
    simp only [CLK_REFCLK, CLK_PLL0, CLK_PLL1, CLK_PLL2, CLK_PLL2DIV2, CLK_AHB,
      CLK_APB2, CLK_APB5,
      (by decide : ((8 : Nat) = 0) = False),
      (by decide : ((8 : Nat) = 1 ∨ (8 : Nat) = 2 ∨ (8 : Nat) = 3 ∨ (8 : Nat) = 4) = False),
      (by decide : ((8 : Nat) = 5 ∨ (8 : Nat) = 6 ∨ (8 : Nat) = 7) = False),
      if_false]
    exact ⟨trivial, trivial, trivial⟩
  · rw [show CLK_UART2 = 9 from rfl, get9] at hget
    injection hget with hck
    subst hck
    subst hst1
    simp only [npcm_clk_set_rate, CLK_UART2, eq_self_iff_true, true_or, or_true, if_true]
    rw [npcm_clk_set_fout, get9]
    dsimp only
    rw [fin_state_rate]
    rw [npcm_clk_get_fout, get9]
    dsimp only
    rw [fin_state_rate]
    rw [← hI]
    rw [Nat.mod_eq_of_lt (show I + rate - 1 < 2 ^ 64 by omega), ← hdv,
      Nat.mod_eq_of_lt (show dv < 2 ^ 32 by omega)]
    rw [(show (dv + (2 ^ 32 - 1)) % 2 ^ 32 = dv - 1 by omega)]
    simp only [npcm_clk_get_fin]
    simp only [uart2Clk, UARTCKSEL, CKSEL_PLL2, UARTDIV2, CLKDIV3, CLKSEL, U32MAX,
      genmask, DIV_TYPE1, FIXED_SRC, CLK_PLL2DIV2,
      (by decide : (1 <<< 2 - 1) <<< 8 = (768 : Nat)),
      (by decide : (1 <<< 5 - 1) <<< 11 = (63488 : Nat)),
      (by decide : (4294967295 : Nat) ^^^ 768 = 4294966527),
      (by decide : (4294967295 : Nat) ^^^ 63488 = 4294903807),
      (by decide : ffs 768 = 9), ffs_MMCCKDIV,
      (by decide : (2 : Nat) &&& 1 = 0),
      (by decide : ((4 : Nat) = 88) = False), (by decide : ((4 : Nat) = 4) = True),
      (by decide : ((88 : Nat) = 4) = False), (by decide : ((88 : Nat) = 88) = True),
      (by decide : ((84 : Nat) = 4) = False), (by decide : ((84 : Nat) = 88) = False),
      (by decide : ((0 : Nat) ≠ 0) = False),
      (by decide : ((2 : Nat) &&& 2 ≠ 0) = True),
      (by decide : (3 : Nat) <<< (9 - 1) &&& 768 = 768),
      (by decide : (12 - 1 : Nat) = 11),
      if_true, if_false, Nat.cast_ofNat,
      readl_writel]
    rw [Nat.mod_eq_of_lt (insert_lt _ _ _ (readl_lt st 4) (by norm_num))]
    rw [sel_field_extract _ _ _ _ _ (by decide) (by decide)]
    rw [(by decide : (768 : Nat) >>> 8 = 3)]
    rw [(by decide : clksel_to_clkid 3 768 = 4)]
    rw [(by decide : intToUlong 4 = 4)]
    rw [(by decide : npcm_clk_request 4 = 0)]
    simp only [(by decide : (((0 : Int) ≠ 0)) = False), if_false]
    have hp : ∀ T : RegState, npcm_clk_get_rate 8 T 4 =
        (25000000 * ((readl T 84 &&& 268369920) >>> 16) % 2 ^ 64 /
          ((readl T 84 &&& 63) * ((readl T 84 &&& 1792) >>> 8) *
            ((readl T 84 &&& 57344) >>> 13) % 2 ^ 32) / 2, T) := by
      intro T
      have h := getRate_pll2div2 6 T
      simp only [show (6 + 2 : Nat) = 8 from rfl, show CLK_PLL2DIV2 = 4 from rfl,
        PLLCON2, PLLCON_INDV, PLLCON_FBDV, PLLCON_OTDV1, PLLCON_OTDV2, genmask,
        (by decide : (1 <<< 6 - 1 : Nat) = 63),
        (by decide : (1 <<< 12 - 1) <<< 16 = (268369920 : Nat)),
        (by decide : (1 <<< 3 - 1) <<< 8 = (1792 : Nat)),
        (by decide : (1 <<< 3 - 1) <<< 13 = (57344 : Nat))] at h
      exact h
    simp only [hp]
    simp only [readl_writel,
      (by decide : ((84 : Nat) = 4) = False), (by decide : ((84 : Nat) = 88) = False),
      if_true, if_false]
    simp only [PRE_DIV2, (by decide : ((2 : Nat) &&& 8 ≠ 0) = False), if_false]
    rw [Nat.mod_eq_of_lt (insert_lt _ _ _ (readl_lt st 88)
      (lt_of_le_of_lt Nat.and_le_right (by norm_num)))]
    rw [sel_field_extract _ _ _ _ _ (by decide) (and_nm_idem _ _)]
    rw [extract_back_mmc]
    rw [Nat.mod_eq_of_lt (show dv - 1 < 32 by omega)]
    rw [(show dv - 1 + 1 = dv by omega)]
    rw [Nat.mod_eq_of_lt (show dv < 2 ^ 32 by omega)]
    have hIE : I = 25000000 * ((readl st 84 &&& 268369920) >>> 16) % 2 ^ 64 /
        ((readl st 84 &&& 63) * ((readl st 84 &&& 1792) >>> 8) *
          ((readl st 84 &&& 57344) >>> 13) % 2 ^ 32) / 2 := by
      rw [hI, npcm_clk_get_fin]
      dsimp only
      simp only [uart2Clk, UARTCKSEL, CKSEL_PLL2, CLKSEL, U32MAX, genmask, DIV_TYPE1, FIXED_SRC,
        (by decide : (1 <<< 2 - 1) <<< 8 = (768 : Nat)),
        (by decide : (4294967295 : Nat) ^^^ 768 = 4294966527),
        (by decide : ffs 768 = 9),
        (by decide : (2 : Nat) &&& 1 = 0),
        (by decide : ((4 : Nat) = 4) = True),
        (by decide : ((0 : Nat) ≠ 0) = False),
        (by decide : (3 : Nat) <<< (9 - 1) &&& 768 = 768),
        if_true, if_false,
        readl_writel]
      rw [Nat.mod_eq_of_lt (insert_lt _ _ _ (readl_lt st 4) (by norm_num))]
      rw [sel_field_extract _ _ _ _ _ (by decide) (by decide)]
      rw [(by decide : (768 : Nat) >>> 8 = 3)]
      rw [(by decide : clksel_to_clkid 3 768 = 4)]
      rw [(by decide : intToUlong 4 = 4)]
      rw [(by decide : npcm_clk_request 4 = 0)]
      simp only [(by decide : (((0 : Int) ≠ 0)) = False), if_false]
      simp only [hp]
      simp only [readl_writel, (by decide : ((84 : Nat) = 4) = False), if_true, if_false]
    rw [hIE]
    rw [npcm_clk_get_rate]
    simp only [CLK_REFCLK, CLK_PLL0, CLK_PLL1, CLK_PLL2, CLK_PLL2DIV2, CLK_AHB,
      CLK_APB2, CLK_APB5,
      (by decide : ((9 : Nat) = 0) = False),
      (by decide : ((9 : Nat) = 1 ∨ (9 : Nat) = 2 ∨ (9 : Nat) = 3 ∨ (9 : Nat) = 4) = False),
      (by decide : ((9 : Nat) = 5 ∨ (9 : Nat) = 6 ∨ (9 : Nat) = 7) = False),
      if_false]
    exact ⟨trivial, trivial, trivial⟩

/-- Witness for C4: CLK_SDHC set to 100 MHz from the reference PLL
configuration; the internal resolver reproduces the returned 100 MHz
while the public get_rate answers -ENOSYS. -/
theorem claim_C4_witness :
    (npcm_clk_get_fout (npcm_clk_get_rate 8)
        (npcm_clk_set_rate pllState CLK_SDHC 100000000).2 CLK_SDHC).1 =
      (npcm_clk_set_rate pllState CLK_SDHC 100000000).1 ∧
    (npcm_clk_set_rate pllState CLK_SDHC 100000000).1 = 800000000 / 8 ∧
    (npcm_clk_get_rate 8
        (npcm_clk_set_rate pllState CLK_SDHC 100000000).2 CLK_SDHC).1 = ENOSYS_ULONG :=
  claim_C4 pllState CLK_SDHC 100000000 sdhcClk sdhcMuxState 800000000 8
    (Or.inl rfl) get10 rfl (by decide) (by decide) (by decide) (by decide)
    (by decide) (by decide)

end Npcm
